import Mathlib

/-
Verification of the console WebSocket proxy handler
(nova/console/websocketproxy.py, class NovaProxyRequestHandlerBase).

Shallow embedding conventions:
* Python byte strings are modelled as `List Char` (Python 2 `str` is a byte
  string; every byte is one `Char` with code point < 256).
* Python library helpers used by the handler (`urlparse.urlsplit`,
  `urlparse.parse_qs`, `urlparse.unquote`, `Cookie.SimpleCookie`) are
  embedded following the CPython 2.7 library sources, at the level of
  detail the handler exercises.
* The handler itself (`new_websocket_client`) is embedded as a pure
  function from the request, the process configuration, the authorization
  service behaviour, and the backend byte stream, to a result together
  with a trace of the externally visible events (authorization calls,
  socket operations, relay start, teardown).
-/

deriving instance DecidableEq for Except

namespace WsProxy

/-! ## Basic byte-string utilities -/

/-- Split a list at every occurrence of the character `c`
(Python `s.split(c)`): always returns at least one piece. -/
def splitOnChar (c : Char) : List Char → List (List Char)
  | [] => [[]]
  | a :: rest =>
    let r := splitOnChar c rest
    if a = c then [] :: r
    else
      match r with
      | h :: t => (a :: h) :: t
      | [] => [[a]]

/-- Split at the first occurrence of `c` (Python `s.split(c, 1)` when `c`
occurs): `none` when `c` does not occur, otherwise the pieces before and
after the first occurrence. -/
def splitFirst (c : Char) : List Char → Option (List Char × List Char)
  | [] => none
  | a :: rest =>
    if a = c then some ([], rest)
    else (splitFirst c rest).map (fun p => (a :: p.1, p.2))

/-- Characters before the first occurrence of `c` (the whole list when `c`
is absent), as in Python `s.split(c)[0]`. -/
def upToChar (c : Char) (s : List Char) : List Char :=
  match splitFirst c s with
  | some p => p.1
  | none => s

/-- Index of the first occurrence of the pattern `pat` as a contiguous
sublist (Python `s.find(pat)` restricted to a found result). -/
def findSub (pat : List Char) : List Char → Option Nat
  | [] => if pat = [] then some 0 else none
  | a :: rest =>
    if pat.isPrefixOf (a :: rest) then some 0
    else (findSub pat rest).map (· + 1)

/-- Python `s.find(pat) != -1`. -/
def containsSub (pat s : List Char) : Bool :=
  (findSub pat s).isSome

/-- Characters strictly before the first occurrence of the pattern
(Python `s.split(pat)[0]`). -/
def upToSub (pat s : List Char) : List Char :=
  match findSub pat s with
  | some i => s.take i
  | none => s

/-- Python `s.lower()` (ASCII). -/
def lcase (s : List Char) : List Char :=
  s.map Char.toLower

/-! ## CPython 2.7 `urlparse.urlsplit` -/

/-- Characters allowed in a URL scheme by `urlparse`
(`scheme_chars = letters + digits + '+-.'`). -/
def isSchemeChar (c : Char) : Bool :=
  c.isAlpha || c.isDigit || c = '+' || c = '-' || c = '.'

/-- Result record of `urlparse.urlsplit` (the `params` component added by
`urlparse.urlparse` is irrelevant to the handler and omitted). -/
structure SplitResult where
  scheme : List Char
  netloc : List Char
  path : List Char
  query : List Char
  fragment : List Char
deriving DecidableEq, Repr

/-- CPython `urlparse._splitnetloc`: the network-location part extends to
the first `/`, `?` or `#`. -/
def splitnetloc : List Char → List Char × List Char
  | [] => ([], [])
  | a :: rest =>
    if a = '/' ∨ a = '?' ∨ a = '#' then ([], a :: rest)
    else
      let p := splitnetloc rest
      (a :: p.1, p.2)

/-- CPython 2.7 `urlparse.urlsplit` with `allow_fragments=True`.
Faithfully reproduces: the case-sensitive `'http'` fast path that skips
the port-number check; the rule that a candidate scheme followed only by
digits is not a scheme; lower-casing of the scheme; and the
`ValueError("Invalid IPv6 URL")` raised for a netloc with unbalanced
square brackets (modelled as `.error ()`). -/
def urlsplitE (url : List Char) : Except Unit SplitResult :=
  let p1 : List Char × List Char :=
    match url.findIdx? (fun c => c = ':') with
    | some i =>
      if 0 < i then
        let pre := url.take i
        let post := url.drop (i + 1)
        if pre = ['h', 't', 't', 'p'] then (pre, post)
        else if pre.all isSchemeChar &&
                (post.isEmpty || post.any (fun c => ¬ c.isDigit)) then
          (lcase pre, post)
        else ([], url)
      else ([], url)
    | none => ([], url)
  let scheme := p1.1
  let rest1 := p1.2
  let p2 : List Char × List Char :=
    if ['/', '/'].isPrefixOf rest1 then splitnetloc (rest1.drop 2)
    else ([], rest1)
  let netloc := p2.1
  let rest2 := p2.2
  if (netloc.contains '[' && ¬ netloc.contains ']') ||
     (netloc.contains ']' && ¬ netloc.contains '[') then
    .error ()
  else
    let p3 : List Char × List Char :=
      match splitFirst '#' rest2 with
      | some q => (q.1, q.2)
      | none => (rest2, [])
    let p4 : List Char × List Char :=
      match splitFirst '?' p3.1 with
      | some q => (q.1, q.2)
      | none => (p3.1, [])
    .ok ⟨scheme, netloc, p4.1, p4.2, p3.2⟩

/-- The `hostname` property of a CPython 2.7 `SplitResult`: strip any
user-info part, handle a bracketed IPv6 literal, strip a port, lower-case;
`None` (here `none`) when there is no host at all. -/
def hostnameOf (netloc : List Char) : Option (List Char) :=
  let n := (splitOnChar '@' netloc).getLastD []
  if n.contains '[' && n.contains ']' then
    some (lcase (((splitOnChar ']' n).headD []).drop 1))
  else if n.contains ':' then
    some (lcase (upToChar ':' n))
  else if n.isEmpty then none
  else some (lcase n)

/-! ## CPython 2.7 `urlparse.parse_qs` -/

/-- Value of a hexadecimal digit, both cases (as in `urlparse._hextochr`). -/
def hexVal (c : Char) : Option Nat :=
  if c.isDigit then some (c.toNat - '0'.toNat)
  else if 'a' ≤ c ∧ c ≤ 'f' then some (c.toNat - 'a'.toNat + 10)
  else if 'A' ≤ c ∧ c ≤ 'F' then some (c.toNat - 'A'.toNat + 10)
  else none

/-- Decode one piece that followed a `%` during `unquote`: two leading hex
digits become the corresponding byte, otherwise the `%` is kept verbatim. -/
def unquoteBit : List Char → List Char
  | c1 :: c2 :: tail =>
    match hexVal c1, hexVal c2 with
    | some h1, some h2 => Char.ofNat (16 * h1 + h2) :: tail
    | _, _ => '%' :: c1 :: c2 :: tail
  | item => '%' :: item

/-- CPython 2.7 `urlparse.unquote`: split on `%` and decode each
percent-escape, keeping malformed escapes verbatim. -/
def pyUnquote (s : List Char) : List Char :=
  match splitOnChar '%' s with
  | [] => s
  | b :: rest => b ++ (rest.map unquoteBit).flatten

/-- Python `s.replace('+', ' ')`, applied by `parse_qsl` before unquoting. -/
def plusToSpace (s : List Char) : List Char :=
  s.map (fun c => if c = '+' then ' ' else c)

/-- Full decoding `parse_qsl` applies to each name and value. -/
def qsDecode (s : List Char) : List Char :=
  pyUnquote (plusToSpace s)

/-- The raw `name=value` fragments of a query string: CPython 2.7
`parse_qsl` splits on `&` and then on `;`. -/
def qsPairs (qs : List Char) : List (List Char) :=
  ((splitOnChar '&' qs).map (splitOnChar ';')).flatten

/-- One fragment's contribution to `parse_qsl(qs)` with default options
(`keep_blank_values=0`, `strict_parsing=0`): fragments without `=` and
fragments with an empty value are dropped; name and value are decoded. -/
def qslEntry (nv : List Char) : Option (List Char × List Char) :=
  match splitFirst '=' nv with
  | none => none
  | some p => if p.2 = [] then none else some (qsDecode p.1, qsDecode p.2)

/-- CPython 2.7 `urlparse.parse_qsl(qs)` with default options. -/
def parseQsl (qs : List Char) : List (List Char × List Char) :=
  (qsPairs qs).filterMap qslEntry

/-- The literal byte string `token`. -/
def tokenKey : List Char := ['t', 'o', 'k', 'e', 'n']

/-- The literal byte string `cookie`. -/
def cookieKey : List Char := ['c', 'o', 'o', 'k', 'i', 'e']

/-- The literal byte string `host`. -/
def hostKey : List Char := ['h', 'o', 's', 't']

/-- The literal byte string `origin`. -/
def originKey : List Char := ['o', 'r', 'i', 'g', 'i', 'n']

/-- The list `parse_qs(query).get("token", [""])` would map `pop` over:
all decoded values whose decoded name is `token`, in query order
(`parse_qs` groups `parse_qsl`'s pairs per name preserving order). -/
def qsTokenList (qs : List Char) : List (List Char) :=
  (parseQsl qs).filterMap (fun p => if p.1 = tokenKey then some p.2 else none)

/-- `urlparse.parse_qs(query).get("token", [""]).pop()`: the last decoded
`token` value, or the empty string when `parse_qs` retained none. -/
def queryToken (qs : List Char) : List Char :=
  (qsTokenList qs).getLastD []

/-! ## `Cookie.SimpleCookie` (modelled library collaborator)

The handler loads the `cookie` header into a `Cookie.SimpleCookie` and, if
a `token` morsel exists, takes its `value`.  The library parser is
embedded in simplified form: the header is split on `;`, each piece must
be a `name=value` pair (pieces without `=` are ignored), names are
stripped of surrounding blanks, `$`-prefixed legacy attributes are
ignored, a double-quoted value is unwrapped, and for a repeated name the
last occurrence wins (the library stores morsels in a dict).  Backslash
escape sequences inside quoted values and the library's rejection of
illegal characters are not modelled; no claim exercises them. -/

/-- Python `s.strip()` restricted to blanks and tabs. -/
def trimBlanks (s : List Char) : List Char :=
  (s.dropWhile (fun c => c = ' ' ∨ c = '\t')).reverse.dropWhile
    (fun c => c = ' ' ∨ c = '\t') |>.reverse

/-- Unwrap one level of surrounding double quotes (`Cookie._unquote`,
without backslash escapes). -/
def unwrapQuotes (v : List Char) : List Char :=
  if 2 ≤ v.length ∧ v.headD ' ' = '"' ∧ v.getLastD ' ' = '"' then
    (v.drop 1).dropLast
  else v

/-- The `token` morsel's value from a cookie header, when one exists. -/
def cookieToken (hdr : List Char) : Option (List Char) :=
  let entries := (splitOnChar ';' hdr).filterMap (fun piece =>
    match splitFirst '=' piece with
    | none => none
    | some p =>
      let k := trimBlanks p.1
      if k = [] ∨ k.headD ' ' = '$' then none
      else some (k, unwrapQuotes (trimBlanks p.2)))
  ((entries.filter (fun e => e.1 = tokenKey)).getLast?).map (fun e => e.2)

/-! ## Token extraction (lines 84-95 of the handler) -/

/-- Token extraction exactly as in `new_websocket_client`: the popped
`parse_qs` value; if that is falsy (empty), and a non-empty `cookie`
header is present whose parse contains a `token` morsel, that morsel's
value. -/
def extractedToken (query : List Char) (hcookie : Option (List Char)) : List Char :=
  let token := queryToken query
  if token ≠ [] then token
  else
    match hcookie with
    | none => token
    | some hc =>
      if hc = [] then token
      else
        match cookieToken hc with
        | some v => v
        | none => token

/-! ## Handler data model -/

/-- The connection info dict returned by
`consoleauth_rpcapi.ConsoleAuthAPI().check_token` for a valid token, as
the handler consumes it (`host`, `port`, `console_type`,
`internal_access_path`).  A missing `internal_access_path` key and one
set to `None` are both `none`. -/
structure ConnectInfo where
  host : List Char
  port : Nat
  console_type : List Char
  internal_access_path : Option (List Char)
deriving DecidableEq, Repr

/-- The three configured base URLs whose schemes the handler consumes:
`CONF.novncproxy_base_url`, `CONF.spice.html5proxy_base_url`,
`CONF.serial_console.base_url`. -/
structure Config where
  novncproxy_base_url : List Char
  html5proxy_base_url : List Char
  serial_base_url : List Char
deriving DecidableEq, Repr

/-- An inbound request as the handler reads it: `self.path` (with query
string) and the header map (`getheader` lookup is case-insensitive, last
occurrence of a repeated header wins, as in `rfc822.Message`). -/
structure Request where
  path : List Char
  headers : List (List Char × List Char)
deriving DecidableEq, Repr

/-- `self.headers.getheader(name)`: case-insensitive lookup, last
occurrence wins. -/
def getheader (headers : List (List Char × List Char)) (name : List Char) :
    Option (List Char) :=
  (headers.reverse.find? (fun p => lcase p.1 = lcase name)).map (fun p => p.2)

/-- Detail payloads of the four `ValidationError`s the handler can raise
(the formatted message strings are abstracted to tags; the invalid
console type tag carries the offending `console_type`). -/
inductive VDetail where
  | invalidConsoleType (console_type : List Char)
  | originNotValid
  | originMismatch
  | protoMismatch
deriving DecidableEq, Repr

/-- Everything `new_websocket_client` can raise.  `pyTypeError` is the
`TypeError` from `':' in None` when the `Host` header is missing;
`pyValueError` is `urlparse`'s `ValueError` for an unbalanced IPv6
netloc; `socketError` is a failed backend TCP connect; `proxyError`
is the exception (abstracted to an id) with which the relay terminated;
`handshakePending` marks the run in which the unbounded peek loop never
sees a header terminator and so never exits. -/
inductive Err where
  | invalidToken (token : List Char)
  | validationError (detail : VDetail)
  | invalidConnectionInfo
  | pyTypeError
  | pyValueError
  | socketError
  | proxyError (exc : Nat)
  | handshakePending
deriving DecidableEq, Repr

/-- Externally visible events of one connection, in order: the
authorization service call with the token it was handed, its success,
successful completion of origin validation, the backend TCP connect
attempt, the CONNECT handshake write, a consuming `recv` of `n` bytes,
the start of `do_proxy` (carrying the backend bytes still unconsumed and
thus available to the relay), and the teardown steps of the relay's
`except` clause. -/
inductive Ev where
  | authCheck (token : List Char)
  | authorized
  | originChecked
  | connect (host : List Char) (port : Nat)
  | sendHandshake (path : List Char)
  | recvConsume (n : Nat)
  | startProxy (backendRest : List Char)
  | shutdownRDWR
  | closeSock
  | logClosed (host : List Char) (port : Nat)
deriving DecidableEq, Repr

/-! ## Origin validation (lines 50-64 and 104-124) -/

/-- The literal byte strings the handler compares `console_type` with. -/
def novncKey : List Char := ['n', 'o', 'v', 'n', 'c']

/-- The `spice-html5` console type literal. -/
def spiceKey : List Char :=
  ['s', 'p', 'i', 'c', 'e', '-', 'h', 't', 'm', 'l', '5']

/-- The `serial` console type literal. -/
def serialKey : List Char := ['s', 'e', 'r', 'i', 'a', 'l']

/-- `urlparse.urlparse(u).scheme` as the handler uses it on a configured
base URL, with `urlparse`'s possible `ValueError` propagated. -/
def schemeOfUrlE (u : List Char) : Except Err (List Char) :=
  match urlsplitE u with
  | .error _ => .error .pyValueError
  | .ok r => .ok r.scheme

/-- `NovaProxyRequestHandlerBase.verify_origin_proto`: look up the base
URL configured for the console type, parse it, and compare its scheme
with the origin's; an unrecognized console type raises the
invalid-console-type `ValidationError`; parsing a configured URL can
itself raise `ValueError`. -/
def verify_origin_proto (conf : Config) (console_type origin_proto : List Char) :
    Except Err Bool :=
  if console_type = novncKey then
    (schemeOfUrlE conf.novncproxy_base_url).map
      (fun expected_proto => origin_proto = expected_proto)
  else if console_type = spiceKey then
    (schemeOfUrlE conf.html5proxy_base_url).map
      (fun expected_proto => origin_proto = expected_proto)
  else if console_type = serialKey then
    (schemeOfUrlE conf.serial_base_url).map
      (fun expected_proto => origin_proto = expected_proto)
  else .error (.validationError (.invalidConsoleType console_type))

/-- Lines 104-124 of `new_websocket_client`: strip any port from the
`Host` header (a missing `Host` makes `':' in None` raise `TypeError`);
a missing `Origin` header passes; otherwise parse the origin and apply
the three checks in source order.  Note that `origin.hostname` is `None`
(not the empty string) when the origin has no host, so such an origin
reaches the hostname comparison. -/
def originCheck (headers : List (List Char × List Char)) (conf : Config)
    (console_type : List Char) : Except Err Unit :=
  match getheader headers hostKey with
  | none => .error .pyTypeError
  | some hostHdr =>
    let expectedHost :=
      if hostHdr.contains ':' then upToChar ':' hostHdr else hostHdr
    match getheader headers originKey with
    | none => .ok ()
    | some originUrl =>
      match urlsplitE originUrl with
      | .error _ => .error .pyValueError
      | .ok o =>
        let originHostname := hostnameOf o.netloc
        if originHostname = some [] ∨ o.scheme = [] then
          .error (.validationError .originNotValid)
        else if originHostname ≠ some expectedHost then
          .error (.validationError .originMismatch)
        else
          match verify_origin_proto conf console_type o.scheme with
          | .error e => .error e
          | .ok true => .ok ()
          | .ok false => .error (.validationError .protoMismatch)

/-! ## The full handler -/

/-- The header terminator `\r\n\r\n`. -/
def crlfcrlf : List Char := ['\r', '\n', '\r', '\n']

/-- The line separator `\r\n`. -/
def crlf : List Char := ['\r', '\n']

/-- The success status digits `200` searched for in the reply line. -/
def twoHundred : List Char := ['2', '0', '0']

/-- Truthiness of `connect_info.get('internal_access_path')`: present and
non-empty. -/
def iapTruthy : Option (List Char) → Bool
  | none => false
  | some s => ¬ s.isEmpty

/-- `NovaProxyRequestHandlerBase.new_websocket_client`, embedded as a
pure function.  External behaviour is supplied as inputs: `auth` is the
authorization service (`check_token` returning a connect-info dict or an
empty/falsy result, modelled as `Option ConnectInfo`); `stream` is the
byte sequence the backend will send, of which `avail` bytes have arrived
when the handshake peek that first sees a terminator happens (`recv`
with `MSG_PEEK` returns up to 4096 arrived bytes without consuming
them); `connectOk` is whether the backend TCP connect succeeds; and
`relayExc` abstracts the exception with which `do_proxy` terminates
(websockify's relay loop exits only by raising).  The result pairs the
handler's outcome with the trace of visible events.  Assumed
environment: Python >= 2.7.4, so the special-scheme guard on lines 76-82
raises nothing; the eventlet hub reopening on lines 70-71 and the log
calls have no modelled effect. -/
def new_websocket_client (req : Request) (conf : Config)
    (auth : List Char → Option ConnectInfo) (stream : List Char)
    (avail : Nat) (connectOk : Bool) (relayExc : Nat) :
    Except Err Unit × List Ev :=
  match urlsplitE req.path with
  | .error _ => (.error .pyValueError, [])
  | .ok parse =>
    let token :=
      extractedToken parse.query (getheader req.headers cookieKey)
    match auth token with
    | none => (.error (.invalidToken token), [.authCheck token])
    | some connect_info =>
      match originCheck req.headers conf connect_info.console_type with
      | .error e => (.error e, [.authCheck token, .authorized])
      | .ok _ =>
        let host := connect_info.host
        let port := connect_info.port
        let evs := [Ev.authCheck token, Ev.authorized, Ev.originChecked,
                    Ev.connect host port]
        if ¬ connectOk then (.error .socketError, evs)
        else if iapTruthy connect_info.internal_access_path then
          let accessPath := connect_info.internal_access_path.getD []
          let evs := evs ++ [Ev.sendHandshake accessPath]
          let data := stream.take (min avail 4096)
          if containsSub crlfcrlf data then
            if ¬ containsSub twoHundred (upToSub crlf data) then
              (.error .invalidConnectionInfo, evs)
            else
              let evs := evs ++ [Ev.recvConsume data.length,
                                 Ev.startProxy (stream.drop data.length)]
              (.error (.proxyError relayExc),
               evs ++ [Ev.shutdownRDWR, Ev.closeSock, Ev.logClosed host port])
          else (.error .handshakePending, evs)
        else
          let evs := evs ++ [Ev.startProxy stream]
          (.error (.proxyError relayExc),
           evs ++ [Ev.shutdownRDWR, Ev.closeSock, Ev.logClosed host port])

/-! ## Claim-side definitions

These definitions transcribe the wording of spec claims, for comparison
with the handler embedding above. -/

/-- Claim-side reading of one `name=value` fragment of the query string:
its raw value when the (decoded) name is `token`.  Unlike `qslEntry`,
fragments with empty values are kept. -/
def rawTokenEntry (nv : List Char) : Option (List Char) :=
  match splitFirst '=' nv with
  | none => none
  | some p => if qsDecode p.1 = tokenKey then some p.2 else none

/-- Claim-side list of the raw values of all `token` query parameters, in
query order, empty values included. -/
def rawTokenValues (qs : List Char) : List (List Char) :=
  (qsPairs qs).filterMap rawTokenEntry

/-- The last `token` query parameter value that is non-empty, if any. -/
def lastNonEmptyTokenValue (qs : List Char) : Option (List Char) :=
  ((rawTokenValues qs).filter (fun v => v ≠ [])).getLast?

/-- Token extraction as the amended claim C7 words it: the last `token`
query parameter carrying a non-empty value wins; otherwise the `token`
cookie entry's value when one exists; otherwise the empty string. -/
def claimToken (query : List Char) (hcookie : Option (List Char)) : List Char :=
  match lastNonEmptyTokenValue query with
  | some v => qsDecode v
  | none =>
    match hcookie with
    | none => []
    | some hc => (cookieToken hc).getD []

/-- The scheme configured for a recognized console type: the parsed
scheme of the corresponding base URL. -/
def schemeFor (conf : Config) (console_type : List Char) : Option (List Char) :=
  if console_type = novncKey then (schemeOfUrlE conf.novncproxy_base_url).toOption
  else if console_type = spiceKey then
    (schemeOfUrlE conf.html5proxy_base_url).toOption
  else if console_type = serialKey then
    (schemeOfUrlE conf.serial_base_url).toOption
  else none

/-- The errors that can only arise before any backend TCP connect is
attempted: authorization and origin-validation failures (including the
`TypeError`/`ValueError` crashes of those stages). -/
def preConnectErr : Err → Bool
  | .invalidToken _ => true
  | .validationError _ => true
  | .pyTypeError => true
  | .pyValueError => true
  | _ => false

/-- Length of the header block of a backend reply: one past the end of the
first `\r\n\r\n` terminator, when there is one. -/
def headerEnd (s : List Char) : Option Nat :=
  (findSub crlfcrlf s).map (· + 4)

/-! ## Concrete fixtures

Concrete inputs used by witnesses and counterexamples (spec section 8,
scenarios A-C, and variations). -/

/-- A configuration with `http` novnc scheme, `http` spice scheme and
`ws` serial scheme. -/
def sampleConf : Config :=
  ⟨("http://proxy.example.com:6080/vnc_auto.html").data,
   ("http://spice.example.com/spice_auto.html").data,
   ("ws://serial.example.com/").data⟩

/-- Connection info of scenario A: a novnc console at `10.0.0.5:6080`,
no internal access path. -/
def sampleCi : ConnectInfo := ⟨("10.0.0.5").data, 6080, novncKey, none⟩

/-- Connection info with an internal access path, so the CONNECT
handshake runs. -/
def sampleCiIap : ConnectInfo :=
  ⟨("10.0.0.5").data, 6080, novncKey, some (("node1").data)⟩

/-- Connection info whose console type is not one of the three
recognized ones. -/
def sampleCiBogus : ConnectInfo :=
  ⟨("10.0.0.5").data, 6080, ("bogus").data, none⟩

/-- An authorization service that resolves exactly the token `abc123`
to the given connection info. -/
def authFor (ci : ConnectInfo) : List Char → Option ConnectInfo :=
  fun t => if t = ("abc123").data then some ci else none

/-- Scenario A request: token in the query string, matching Origin. -/
def sampleReq : Request :=
  ⟨("/?token=abc123").data,
   [(("Host").data, ("proxy.example.com").data),
    (("Origin").data, ("http://proxy.example.com").data)]⟩

/-- A request with a valid token and no Origin header. -/
def reqNoOrigin : Request :=
  ⟨("/?token=abc123").data, [(("Host").data, ("proxy.example.com").data)]⟩

/-- A request whose Origin has a scheme but no host component. -/
def reqOriginNoHost : Request :=
  ⟨("/?token=abc123").data,
   [(("Host").data, ("proxy.example.com").data),
    (("Origin").data, ("http://").data)]⟩

/-- A request whose Origin has a matching hostname but no scheme. -/
def reqOriginNoScheme : Request :=
  ⟨("/?token=abc123").data,
   [(("Host").data, ("proxy.example.com").data),
    (("Origin").data, ("//proxy.example.com").data)]⟩

/-- A request with no token anywhere and a Host header. -/
def reqNoToken : Request :=
  ⟨("/").data, [(("Host").data, ("proxy.example.com").data)]⟩

/-- A configuration whose novnc base URL uses the `https` scheme. -/
def sampleConfHttps : Config :=
  ⟨("https://proxy.example.com:6080/vnc_auto.html").data,
   ("http://spice.example.com/spice_auto.html").data,
   ("ws://serial.example.com/").data⟩

/-- A request whose Origin hostname parses to the empty string and whose
Host header port-strips to the empty string. -/
def reqEmptyHostPort : Request :=
  ⟨("/?token=abc123").data,
   [(("Host").data, (":80").data), (("Origin").data, ("http://:80").data)]⟩

/-- Scenario B request: matching hostname, `https` Origin scheme. -/
def reqHttpsOrigin : Request :=
  ⟨("/?token=abc123").data,
   [(("Host").data, ("proxy.example.com").data),
    (("Origin").data, ("https://proxy.example.com").data)]⟩

/-- A successful backend reply whose peeked buffer already contains
payload bytes (`PAYLOAD`) beyond the 19-byte header block. -/
def streamOk : List Char := ("HTTP/1.1 200 OK\r\n\r\nPAYLOAD").data

/-- A backend reply whose status line carries no success code. -/
def streamBad : List Char := ("HTTP/1.1 404 Not Found\r\n\r\nx").data

/-! ## Helper lemmas -/

theorem splitOnChar_ne_nil (c : Char) (s : List Char) : splitOnChar c s ≠ [] := by
  cases s with
  | nil => simp [splitOnChar]
  | cons a rest =>
    simp only [splitOnChar]
    split
    · simp
    · split <;> simp

theorem splitOnChar_singleton (c : Char) :
    ∀ (s b : List Char), splitOnChar c s = [b] → b = s := by
  intro s
  induction s with
  | nil =>
    intro b h
    simp only [splitOnChar, List.cons.injEq, and_true] at h
    exact h.symm
  | cons a rest ih =>
    intro b h
    simp only [splitOnChar] at h
    by_cases hac : a = c
    · simp only [if_pos hac, List.cons.injEq] at h
      exact absurd h.2 (splitOnChar_ne_nil c rest)
    · simp only [if_neg hac] at h
      match hr : splitOnChar c rest with
      | [] => exact absurd hr (splitOnChar_ne_nil c rest)
      | h0 :: t =>
        rw [hr] at h
        simp only [List.cons.injEq] at h
        have h0r : h0 = rest := by
          apply ih
          rw [hr, h.2]
        rw [h.1.symm, h0r]

theorem unquoteBit_ne_nil (item : List Char) : unquoteBit item ≠ [] := by
  unfold unquoteBit
  split
  · split <;> simp
  · simp

theorem pyUnquote_ne_nil {s : List Char} (hs : s ≠ []) : pyUnquote s ≠ [] := by
  unfold pyUnquote
  match hsp : splitOnChar '%' s with
  | [] => exact hs
  | b :: rest =>
    cases rest with
    | nil =>
      have hb : b = s := splitOnChar_singleton '%' s b hsp
      simpa [hb] using hs
    | cons r0 rest' =>
      have h0 := unquoteBit_ne_nil r0
      simp only [List.map_cons, List.flatten_cons, ne_eq, List.append_eq_nil,
        not_and]
      intro _ habs
      exact absurd habs h0

theorem qsDecode_ne_nil {v : List Char} (hv : v ≠ []) : qsDecode v ≠ [] := by
  unfold qsDecode
  apply pyUnquote_ne_nil
  simpa [plusToSpace] using hv

theorem qsTokenList_eq (qs : List Char) :
    qsTokenList qs =
      ((rawTokenValues qs).filter (fun v => v ≠ [])).map qsDecode := by
  unfold qsTokenList parseQsl rawTokenValues
  rw [List.filterMap_filterMap, List.filter_filterMap, List.map_filterMap]
  apply List.filterMap_congr
  intro nv _
  unfold qslEntry rawTokenEntry
  match splitFirst '=' nv with
  | none => rfl
  | some p =>
    by_cases hv : p.2 = [] <;> by_cases hk : qsDecode p.1 = tokenKey <;>
      simp [hv, hk, Option.filter]

theorem queryToken_eq (qs : List Char) :
    queryToken qs =
      match lastNonEmptyTokenValue qs with
      | some v => qsDecode v
      | none => [] := by
  unfold queryToken lastNonEmptyTokenValue
  rw [qsTokenList_eq, List.getLastD_eq_getLast?, List.getLast?_map]
  rcases hX : ((rawTokenValues qs).filter (fun v => v ≠ [])).getLast? with _ | v <;>
    rw [hX] <;> rfl

theorem lastNonEmptyTokenValue_ne_nil {qs v : List Char}
    (h : lastNonEmptyTokenValue qs = some v) : v ≠ [] := by
  unfold lastNonEmptyTokenValue at h
  have hm := List.mem_of_mem_getLast? h
  rw [List.mem_filter] at hm
  simpa using hm.2

/-! ## Claims C7 and C10: token extraction -/

/-- Counterexample to claim C7 as stated.  The request `/?token=` carries
a `token` query parameter whose value is the empty string, and a cookie
header `token=abc`.  C7 says the extracted token is the query parameter's
value (the empty string) since the parameter is present; the handler
instead falls back to the cookie and extracts `abc`. -/
theorem c7_counterexample :
    rawTokenValues (("token=").data) = [[]] ∧
    extractedToken (("token=").data) (some (("token=abc").data)) =
      ("abc").data ∧
    (("abc").data : List Char) ≠ [] := by
  decide

/-- Claim C7, amended: token extraction is a pure function of the request;
the extracted token is the last `token` query parameter value that is
non-empty, when one exists (`parse_qs` discards parameters with empty
values, so a present-but-empty `token` parameter does not count);
otherwise the value of a `token` entry parsed from the cookie header when
one exists; otherwise the empty string. -/
theorem c7_token_extraction (q : List Char) (hc : Option (List Char)) :
    extractedToken q hc = claimToken q hc := by
  have hq := queryToken_eq q
  rcases hL : lastNonEmptyTokenValue q with _ | v <;> rw [hL] at hq
  · simp only [extractedToken, claimToken, hq, hL, ne_eq, not_true_eq_false,
      if_false]
    cases hc with
    | none => rfl
    | some hcv =>
      by_cases hhc : hcv = []
      · subst hhc
        have hck : cookieToken [] = none := rfl
        simp [hck]
      · simp only [if_neg hhc]
        rcases hct : cookieToken hcv with _ | w <;> simp [hct]
  · have hvne : qsDecode v ≠ [] :=
      qsDecode_ne_nil (lastNonEmptyTokenValue_ne_nil hL)
    simp [extractedToken, claimToken, hq, hL, hvne]

/-- Counterexample to claim C10 as stated.  For the query string
`token=a&token=` the last `token` parameter's value is the empty string,
so C10 as stated demands a fallback to the cookie (`token=zzz`); the
handler instead extracts `a`, because `parse_qs` discards the empty-valued
parameter before `pop` picks the last remaining value. -/
theorem c10_counterexample :
    (rawTokenValues (("token=a&token=").data)).getLast? = some [] ∧
    extractedToken (("token=a&token=").data) (some (("token=zzz").data)) =
      ("a").data ∧
    cookieToken (("token=zzz").data) = some (("zzz").data) ∧
    (("a").data : List Char) ≠ ("zzz").data := by
  decide

/-- Claim C10, amended: query parsing discards `token` parameters with
empty values; the last remaining `token` value is taken, and whenever the
query-derived token is empty — which happens exactly when no `token`
parameter carries a non-empty value — the extractor behaves exactly as if
the query string carried no token at all, falling back to the cookie
header. -/
theorem c10_last_token_wins (q : List Char) (hc : Option (List Char)) :
    (∀ v, lastNonEmptyTokenValue q = some v →
      extractedToken q hc = qsDecode v) ∧
    (lastNonEmptyTokenValue q = none →
      extractedToken q hc = extractedToken [] hc) := by
  constructor
  · intro v hL
    have hq : queryToken q = qsDecode v := by rw [queryToken_eq, hL]
    have hvne : qsDecode v ≠ [] :=
      qsDecode_ne_nil (lastNonEmptyTokenValue_ne_nil hL)
    simp [extractedToken, hq, hvne]
  · intro hL
    have hq : queryToken q = [] := by rw [queryToken_eq, hL]
    have hq0 : queryToken [] = [] := rfl
    simp [extractedToken, hq, hq0]

/-- Witness for the amended claim C10 at concrete inputs: the query
`token=a&token=b` yields `b`, and the query `x=1` (no token) falls back
to the cookie exactly as the empty query does. -/
theorem c10_last_token_wins_witness :
    extractedToken (("token=a&token=b").data) (some (("token=zzz").data)) =
      qsDecode (("b").data) ∧
    extractedToken (("x=1").data) (some (("token=zzz").data)) =
      extractedToken [] (some (("token=zzz").data)) :=
  ⟨(c10_last_token_wins (("token=a&token=b").data)
      (some (("token=zzz").data))).1 (("b").data) (by decide),
   (c10_last_token_wins (("x=1").data)
      (some (("token=zzz").data))).2 (by decide)⟩

/-! ## Claim C1: all checks complete before any backend socket is opened -/

/-- Claim C1: in every run, a backend TCP connect event only ever occurs
after the authorization call, its successful completion, and the
successful completion of origin validation (the trace then starts with
exactly those three events); and whenever the run fails with an
authorization or origin-validation error (`InvalidToken`, any
`ValidationError`, or the `TypeError`/`ValueError` those stages can
raise), no backend connect is ever attempted. -/
theorem c1_checks_before_connect (req : Request) (conf : Config)
    (auth : List Char → Option ConnectInfo) (stream : List Char)
    (avail : Nat) (connectOk : Bool) (relayExc : Nat)
    (res : Except Err Unit) (trace : List Ev)
    (hEq : new_websocket_client req conf auth stream avail connectOk relayExc =
      (res, trace)) :
    (∀ h p, Ev.connect h p ∈ trace → ∃ t tl,
      trace = Ev.authCheck t :: Ev.authorized :: Ev.originChecked ::
        Ev.connect h p :: tl) ∧
    (∀ e, res = .error e → preConnectErr e = true →
      ∀ h p, Ev.connect h p ∉ trace) := by
  simp only [new_websocket_client] at hEq
  repeat' split at hEq
  all_goals injection hEq with h1 h2
  all_goals subst h1
  all_goals subst h2
  all_goals refine ⟨fun h p hm => ?_, fun e hres hpre h p hm => ?_⟩
  all_goals
    first
    | (simp at hm; done)
    | (injection hres with hres1
       subst hres1
       simp [preConnectErr] at hpre)
    | (simp at hm
       obtain ⟨hh, hp⟩ := hm
       subst hh
       subst hp
       exact ⟨_, _, rfl⟩)

/-- Witness for claim C1 at scenario A: the run reaches the backend
connect, and its trace indeed starts with the authorization call, the
authorization success and the origin-validation success before the
connect. -/
theorem c1_checks_before_connect_witness :
    ∃ t tl,
      (new_websocket_client sampleReq sampleConf (authFor sampleCi)
        [] 0 true 7).2 =
      Ev.authCheck t :: Ev.authorized :: Ev.originChecked ::
        Ev.connect (("10.0.0.5").data) 6080 :: tl :=
  (c1_checks_before_connect sampleReq sampleConf (authFor sampleCi)
    [] 0 true 7 _ _ rfl).1 (("10.0.0.5").data) 6080 (by decide)

/-! ## Claim C2: empty authorization result fails with InvalidToken -/

/-- Claim C2: whenever the authorization service resolves the extracted
token to an empty result, the handler raises `InvalidToken` and no
backend TCP connect is ever attempted; in particular a request with no
`token` entry in the query string or the cookie header hands the
authorizer the empty token. -/
theorem c2_invalid_token (req : Request) (conf : Config)
    (auth : List Char → Option ConnectInfo) (stream : List Char)
    (avail : Nat) (connectOk : Bool) (relayExc : Nat)
    (parse : SplitResult) (hPath : urlsplitE req.path = .ok parse) :
    (auth (extractedToken parse.query
        (getheader req.headers cookieKey)) = none →
      new_websocket_client req conf auth stream avail connectOk relayExc =
        (.error (.invalidToken (extractedToken parse.query
          (getheader req.headers cookieKey))),
         [Ev.authCheck (extractedToken parse.query
          (getheader req.headers cookieKey))])) ∧
    (qsTokenList parse.query = [] →
      (∀ hc, getheader req.headers cookieKey = some hc →
        cookieToken hc = none) →
      extractedToken parse.query
        (getheader req.headers cookieKey) = []) := by
  constructor
  · intro hAuth
    simp only [new_websocket_client, hPath, hAuth]
  · intro hq hcn
    have hqt : queryToken parse.query = [] := by
      unfold queryToken
      rw [hq]
      rfl
    unfold extractedToken
    rw [hqt]
    rcases hhc : getheader req.headers cookieKey with _ | hc
    · simp
    · have := hcn hc hhc
      simp [this]

/-- Witness for claim C2: a request with no token in query string or
cookie extracts the empty token, and with an authorizer that rejects it
the run fails with `InvalidToken` after exactly the authorization call,
with no connect event. -/
theorem c2_invalid_token_witness :
    new_websocket_client reqNoToken sampleConf (authFor sampleCi)
      [] 0 true 7 = (.error (.invalidToken []), [Ev.authCheck []]) ∧
    extractedToken [] (getheader reqNoToken.headers cookieKey) = [] := by
  have hpar : urlsplitE reqNoToken.path = .ok ⟨[], [], ['/'], [], []⟩ := by
    rfl
  have h := c2_invalid_token reqNoToken sampleConf (authFor sampleCi)
    [] 0 true 7 ⟨[], [], ['/'], [], []⟩ hpar
  have ht := h.2 (by decide) (by decide)
  refine ⟨?_, ht⟩
  have h1 := h.1 (by rw [ht]; decide)
  rw [h1, ht]

/-! ## Claim C3: unrecognized console type -/

/-- Counterexample to claim C3 as stated.  For a request with no Origin
header whose token resolves to the unrecognized console type `bogus`,
origin validation completes successfully (its event is in the trace), no
ValidationError is ever raised, and the run proceeds to open the backend
connection — `verify_origin_proto` is only called when an Origin header
is present. -/
theorem c3_counterexample :
    (new_websocket_client reqNoOrigin sampleConf (authFor sampleCiBogus)
      [] 0 true 7).1 = .error (.proxyError 7) ∧
    Ev.originChecked ∈
      (new_websocket_client reqNoOrigin sampleConf (authFor sampleCiBogus)
        [] 0 true 7).2 ∧
    Ev.connect (("10.0.0.5").data) 6080 ∈
      (new_websocket_client reqNoOrigin sampleConf (authFor sampleCiBogus)
        [] 0 true 7).2 ∧
    (new_websocket_client reqNoOrigin sampleConf (authFor sampleCiBogus)
      [] 0 true 7).1 ≠
      .error (.validationError (.invalidConsoleType (("bogus").data))) := by
  decide

/-- Claim C3, amended: when an Origin header is present whose parsed
hostname and scheme are non-empty and whose hostname matches the
port-stripped Host header, a console type outside
{novnc, spice-html5, serial} fails with the invalid-console-type
`ValidationError` before any backend connect; when the Origin header is
absent, the console type is never inspected and the run proceeds to open
the backend connection. -/
theorem c3_invalid_console_type (req : Request) (conf : Config)
    (auth : List Char → Option ConnectInfo) (stream : List Char)
    (avail : Nat) (connectOk : Bool) (relayExc : Nat)
    (parse : SplitResult) (ci : ConnectInfo) (hh : List Char)
    (hPath : urlsplitE req.path = .ok parse)
    (hAuth : auth (extractedToken parse.query
      (getheader req.headers cookieKey)) = some ci)
    (hHost : getheader req.headers hostKey = some hh) :
    (∀ originUrl o hn, getheader req.headers originKey = some originUrl →
      urlsplitE originUrl = .ok o →
      hostnameOf o.netloc = some hn → hn ≠ [] → o.scheme ≠ [] →
      hn = (if hh.contains ':' then upToChar ':' hh else hh) →
      ci.console_type ≠ novncKey → ci.console_type ≠ spiceKey →
      ci.console_type ≠ serialKey →
      new_websocket_client req conf auth stream avail connectOk relayExc =
        (.error (.validationError (.invalidConsoleType ci.console_type)),
         [Ev.authCheck (extractedToken parse.query
            (getheader req.headers cookieKey)), Ev.authorized])) ∧
    (getheader req.headers originKey = none →
      Ev.connect ci.host ci.port ∈
        (new_websocket_client req conf auth stream avail connectOk
          relayExc).2) := by
  constructor
  · intro originUrl o hn hOrig hOu hHn hnne hsne hnh hc1 hc2 hc3
    have hOC : originCheck req.headers conf ci.console_type =
        .error (.validationError (.invalidConsoleType ci.console_type)) := by
      simp only [originCheck, hHost, hOrig, hOu, hHn]
      rw [if_neg (by simp [hnne, hsne])]
      rw [← hnh]
      rw [if_neg (by simp)]
      simp only [verify_origin_proto, if_neg hc1, if_neg hc2, if_neg hc3]
    simp only [new_websocket_client, hPath, hAuth, hOC]
  · intro hNoOrig
    have hOC : originCheck req.headers conf ci.console_type = .ok () := by
      simp only [originCheck, hHost, hNoOrig]
    simp only [new_websocket_client, hPath, hAuth, hOC]
    repeat' split
    all_goals simp

/-- Witness for the amended claim C3: with Origin matching and console
type `bogus` the run fails with the invalid-console-type
`ValidationError`; the same console type with no Origin header reaches
the backend connect. -/
theorem c3_invalid_console_type_witness :
    new_websocket_client sampleReq sampleConf (authFor sampleCiBogus)
      [] 0 true 7 =
      (.error (.validationError (.invalidConsoleType (("bogus").data))),
       [Ev.authCheck (("abc123").data), Ev.authorized]) ∧
    Ev.connect (("10.0.0.5").data) 6080 ∈
      (new_websocket_client reqNoOrigin sampleConf (authFor sampleCiBogus)
        [] 0 true 7).2 := by
  constructor
  · exact (c3_invalid_console_type sampleReq sampleConf
      (authFor sampleCiBogus) [] 0 true 7
      ⟨[], [], ['/'], (("token=abc123").data), []⟩ sampleCiBogus
      (("proxy.example.com").data) rfl rfl rfl).1
      (("http://proxy.example.com").data)
      ⟨(("http").data), (("proxy.example.com").data), [], [], []⟩
      (("proxy.example.com").data) rfl rfl rfl (by decide) (by decide)
      (by decide) (by decide) (by decide) (by decide)
  · exact (c3_invalid_console_type reqNoOrigin sampleConf
      (authFor sampleCiBogus) [] 0 true 7
      ⟨[], [], ['/'], (("token=abc123").data), []⟩ sampleCiBogus
      (("proxy.example.com").data) rfl rfl rfl).2 rfl

/-! ## Claims C4 and C8: origin scheme and malformed origins -/

theorem exceptMap_of_toOption {e : Except Err (List Char)} {es : List Char}
    (h : e.toOption = some es) (f : List Char → Bool) :
    e.map f = .ok (f es) := by
  cases e with
  | error a => simp [Except.toOption] at h
  | ok a =>
    simp only [Except.toOption, Option.some.injEq] at h
    rw [h]
    rfl

theorem verify_origin_proto_eq (conf : Config) (ct s es : List Char)
    (h : schemeFor conf ct = some es) :
    verify_origin_proto conf ct s = .ok (s = es) := by
  unfold schemeFor at h
  unfold verify_origin_proto
  split_ifs at h ⊢ with h1 h2 h3
  · exact exceptMap_of_toOption h _
  · exact exceptMap_of_toOption h _
  · exact exceptMap_of_toOption h _

/-- Counterexample to claim C4 as stated.  Two requests whose parsed
Origin hostname equals the port-stripped Host hostname and whose Origin
scheme differs from the configured scheme: Origin `//proxy.example.com`
(empty scheme) against configured `http`, and Origin `http://:80` with
Host `:80` against configured `https`.  Both fail with the
origin-header-not-valid `ValidationError`, not the protocol-mismatch
one. -/
theorem c4_counterexample :
    (new_websocket_client reqOriginNoScheme sampleConf (authFor sampleCi)
      [] 0 true 7).1 = .error (.validationError .originNotValid) ∧
    (new_websocket_client reqEmptyHostPort sampleConfHttps
      (authFor sampleCi) [] 0 true 7).1 =
      .error (.validationError .originNotValid) ∧
    VDetail.originNotValid ≠ VDetail.protoMismatch := by
  decide

/-- Claim C4, amended: for every request whose parsed Origin hostname is
non-empty and equal to the port-stripped Host hostname, and whose parsed
Origin scheme is non-empty and differs from the scheme configured for the
session's console type (any of the three recognized types), origin
validation fails with the protocol-mismatch `ValidationError` before any
backend connect. -/
theorem c4_proto_mismatch (req : Request) (conf : Config)
    (auth : List Char → Option ConnectInfo) (stream : List Char)
    (avail : Nat) (connectOk : Bool) (relayExc : Nat)
    (parse : SplitResult) (ci : ConnectInfo) (hh : List Char)
    (originUrl : List Char) (o : SplitResult) (hn es : List Char)
    (hPath : urlsplitE req.path = .ok parse)
    (hAuth : auth (extractedToken parse.query
      (getheader req.headers cookieKey)) = some ci)
    (hHost : getheader req.headers hostKey = some hh)
    (hOrig : getheader req.headers originKey = some originUrl)
    (hOu : urlsplitE originUrl = .ok o)
    (hHn : hostnameOf o.netloc = some hn)
    (hnne : hn ≠ []) (hsne : o.scheme ≠ [])
    (hnh : hn = (if hh.contains ':' then upToChar ':' hh else hh))
    (hScheme : schemeFor conf ci.console_type = some es)
    (hdiff : o.scheme ≠ es) :
    new_websocket_client req conf auth stream avail connectOk relayExc =
      (.error (.validationError .protoMismatch),
       [Ev.authCheck (extractedToken parse.query
          (getheader req.headers cookieKey)), Ev.authorized]) := by
  have hOC : originCheck req.headers conf ci.console_type =
      .error (.validationError .protoMismatch) := by
    simp only [originCheck, hHost, hOrig, hOu, hHn]
    rw [if_neg (by simp [hnne, hsne])]
    rw [← hnh]
    rw [if_neg (by simp)]
    rw [verify_origin_proto_eq conf ci.console_type o.scheme es hScheme]
    simp [hdiff]
  simp only [new_websocket_client, hPath, hAuth, hOC]

/-- Witness for the amended claim C4 at scenario B: Origin
`https://proxy.example.com` against configured novnc scheme `http` is
rejected with the protocol-mismatch `ValidationError`. -/
theorem c4_proto_mismatch_witness :
    new_websocket_client reqHttpsOrigin sampleConf (authFor sampleCi)
      [] 0 true 7 =
      (.error (.validationError .protoMismatch),
       [Ev.authCheck (("abc123").data), Ev.authorized]) :=
  c4_proto_mismatch reqHttpsOrigin sampleConf (authFor sampleCi) [] 0 true 7
    ⟨[], [], ['/'], (("token=abc123").data), []⟩ sampleCi
    (("proxy.example.com").data) (("https://proxy.example.com").data)
    ⟨(("https").data), (("proxy.example.com").data), [], [], []⟩
    (("proxy.example.com").data) (("http").data)
    rfl rfl rfl rfl rfl rfl (by decide) (by decide) (by decide) rfl
    (by decide)

/-- Counterexample to claim C8 as stated.  The Origin `http://` has a
scheme but no host, so parsing yields no hostname; claim C8 says such an
origin fails with the origin-header-not-valid `ValidationError`, but the
handler raises the hostname-mismatch one: `urlparse`'s `hostname` is
`None` rather than the empty string, so the emptiness check does not
fire and the comparison with the Host hostname fails instead. -/
theorem c8_counterexample :
    (new_websocket_client reqOriginNoHost sampleConf (authFor sampleCi)
      [] 0 true 7).1 = .error (.validationError .originMismatch) ∧
    VDetail.originMismatch ≠ VDetail.originNotValid := by
  decide

/-- Claim C8, amended: when the Origin header parses to an empty-string
hostname or an empty scheme, origin validation fails with the
origin-header-not-valid `ValidationError`; but an Origin whose parse
yields no hostname at all (no host component, e.g. a scheme with no
host) while its scheme is non-empty fails with the hostname-mismatch
`ValidationError` instead. -/
theorem c8_malformed_origin (req : Request) (conf : Config)
    (auth : List Char → Option ConnectInfo) (stream : List Char)
    (avail : Nat) (connectOk : Bool) (relayExc : Nat)
    (parse : SplitResult) (ci : ConnectInfo) (hh : List Char)
    (originUrl : List Char) (o : SplitResult)
    (hPath : urlsplitE req.path = .ok parse)
    (hAuth : auth (extractedToken parse.query
      (getheader req.headers cookieKey)) = some ci)
    (hHost : getheader req.headers hostKey = some hh)
    (hOrig : getheader req.headers originKey = some originUrl)
    (hOu : urlsplitE originUrl = .ok o) :
    (hostnameOf o.netloc = some [] ∨ o.scheme = [] →
      new_websocket_client req conf auth stream avail connectOk relayExc =
        (.error (.validationError .originNotValid),
         [Ev.authCheck (extractedToken parse.query
            (getheader req.headers cookieKey)), Ev.authorized])) ∧
    (hostnameOf o.netloc = none → o.scheme ≠ [] →
      new_websocket_client req conf auth stream avail connectOk relayExc =
        (.error (.validationError .originMismatch),
         [Ev.authCheck (extractedToken parse.query
            (getheader req.headers cookieKey)), Ev.authorized])) := by
  constructor
  · intro hcond
    have hOC : originCheck req.headers conf ci.console_type =
        .error (.validationError .originNotValid) := by
      simp only [originCheck, hHost, hOrig, hOu]
      rw [if_pos hcond]
    simp only [new_websocket_client, hPath, hAuth, hOC]
  · intro hHn hsne
    have hOC : originCheck req.headers conf ci.console_type =
        .error (.validationError .originMismatch) := by
      simp only [originCheck, hHost, hOrig, hOu, hHn]
      rw [if_neg (by simp [hsne])]
      rw [if_pos (by simp)]
    simp only [new_websocket_client, hPath, hAuth, hOC]

/-- Witness for the amended claim C8: the empty-scheme Origin
`//proxy.example.com` yields the origin-header-not-valid error, and the
hostless Origin `http://` yields the hostname-mismatch error. -/
theorem c8_malformed_origin_witness :
    new_websocket_client reqOriginNoScheme sampleConf (authFor sampleCi)
      [] 0 true 7 =
      (.error (.validationError .originNotValid),
       [Ev.authCheck (("abc123").data), Ev.authorized]) ∧
    new_websocket_client reqOriginNoHost sampleConf (authFor sampleCi)
      [] 0 true 7 =
      (.error (.validationError .originMismatch),
       [Ev.authCheck (("abc123").data), Ev.authorized]) :=
  ⟨(c8_malformed_origin reqOriginNoScheme sampleConf (authFor sampleCi)
      [] 0 true 7 ⟨[], [], ['/'], (("token=abc123").data), []⟩ sampleCi
      (("proxy.example.com").data) (("//proxy.example.com").data)
      ⟨[], (("proxy.example.com").data), [], [], []⟩
      rfl rfl rfl rfl rfl).1 (by decide),
   (c8_malformed_origin reqOriginNoHost sampleConf (authFor sampleCi)
      [] 0 true 7 ⟨[], [], ['/'], (("token=abc123").data), []⟩ sampleCi
      (("proxy.example.com").data) (("http://").data)
      ⟨(("http").data), [], [], [], []⟩
      rfl rfl rfl rfl rfl).2 (by decide) (by decide)⟩

/-! ## Claim C5: handshake byte consumption -/

/-- Evaluation of the handler at the input exhibiting the C5 bug.  The
backend reply `HTTP/1.1 200 OK\r\n\r\nPAYLOAD` has a 19-byte header
block and 7 payload bytes, all visible in the peek buffer.  The claim
(and the spec) demand that exactly 19 bytes be consumed, leaving
`PAYLOAD` for the relay; the handler instead consumes the whole 26-byte
peek buffer (`tsock.recv(len(data))`), so the relay starts with no
remaining backend bytes — the payload is discarded. -/
theorem c5_handshake_overconsumption :
    headerEnd streamOk = some 19 ∧
    List.drop 19 streamOk = ("PAYLOAD").data ∧
    Ev.recvConsume 26 ∈
      (new_websocket_client reqNoOrigin sampleConf (authFor sampleCiIap)
        streamOk 26 true 7).2 ∧
    Ev.startProxy [] ∈
      (new_websocket_client reqNoOrigin sampleConf (authFor sampleCiIap)
        streamOk 26 true 7).2 ∧
    (26 : Nat) ≠ 19 := by
  decide

/-! ## Claim C6: non-success handshake status -/

/-- Claim C6: when `internal_access_path` is set and the peeked backend
reply contains the blank-line terminator but its first line carries no
`200`, the run fails with `InvalidConnectionInfo`; nothing is ever
consumed from the backend connection (no consuming `recv` event) and
the relay never starts. -/
theorem c6_bad_handshake_status (req : Request) (conf : Config)
    (auth : List Char → Option ConnectInfo) (stream : List Char)
    (avail : Nat) (relayExc : Nat) (parse : SplitResult) (ci : ConnectInfo)
    (accessPath : List Char)
    (hPath : urlsplitE req.path = .ok parse)
    (hAuth : auth (extractedToken parse.query
      (getheader req.headers cookieKey)) = some ci)
    (hOC : originCheck req.headers conf ci.console_type = .ok ())
    (hIap : ci.internal_access_path = some accessPath)
    (hIapNe : accessPath ≠ [])
    (hTerm : containsSub crlfcrlf (stream.take (min avail 4096)) = true)
    (hBad : containsSub twoHundred
      (upToSub crlf (stream.take (min avail 4096))) = false) :
    new_websocket_client req conf auth stream avail true relayExc =
      (.error .invalidConnectionInfo,
       [Ev.authCheck (extractedToken parse.query
          (getheader req.headers cookieKey)),
        Ev.authorized, Ev.originChecked, Ev.connect ci.host ci.port,
        Ev.sendHandshake accessPath]) ∧
    (∀ n, Ev.recvConsume n ∉
      (new_websocket_client req conf auth stream avail true relayExc).2) ∧
    (∀ r, Ev.startProxy r ∉
      (new_websocket_client req conf auth stream avail true relayExc).2) := by
  have hRun : new_websocket_client req conf auth stream avail true relayExc =
      (.error .invalidConnectionInfo,
       [Ev.authCheck (extractedToken parse.query
          (getheader req.headers cookieKey)),
        Ev.authorized, Ev.originChecked, Ev.connect ci.host ci.port,
        Ev.sendHandshake accessPath]) := by
    simp only [new_websocket_client, hPath, hAuth, hOC, hTerm, hBad,
      hIap, Option.getD_some]
    simp [iapTruthy, hIapNe]
  refine ⟨hRun, fun n => ?_, fun r => ?_⟩ <;> rw [hRun] <;> simp

/-- Witness for claim C6 at a concrete input: the backend reply
`HTTP/1.1 404 Not Found\r\n\r\nx` makes the run fail with
`InvalidConnectionInfo` after the handshake write, with no consuming
`recv` and no relay start. -/
theorem c6_bad_handshake_status_witness :
    new_websocket_client reqNoOrigin sampleConf (authFor sampleCiIap)
      streamBad 27 true 7 =
      (.error .invalidConnectionInfo,
       [Ev.authCheck (("abc123").data), Ev.authorized, Ev.originChecked,
        Ev.connect (("10.0.0.5").data) 6080,
        Ev.sendHandshake (("node1").data)]) ∧
    Ev.recvConsume 27 ∉
      (new_websocket_client reqNoOrigin sampleConf (authFor sampleCiIap)
        streamBad 27 true 7).2 ∧
    Ev.startProxy [] ∉
      (new_websocket_client reqNoOrigin sampleConf (authFor sampleCiIap)
        streamBad 27 true 7).2 := by
  have h := c6_bad_handshake_status reqNoOrigin sampleConf
    (authFor sampleCiIap) streamBad 27 7
    ⟨[], [], ['/'], (("token=abc123").data), []⟩ sampleCiIap
    (("node1").data) rfl rfl rfl rfl (by decide) (by decide) (by decide)
  exact ⟨h.1, h.2.1 27, h.2.2 []⟩

/-! ## Claim C9: relay-phase teardown -/

/-- Claim C9: for every connection that reaches the relay phase, the
relay's terminating exception (websockify's `do_proxy` exits only by
raising) triggers, in order, a shutdown of the backend socket for both
directions, its close, and a termination log entry naming the backend
`host:port`, after which the error is re-raised as the run's result —
in both the direct-connect and the handshake configurations, so no
relay-phase exit leaves the backend socket open. -/
theorem c9_relay_teardown (req : Request) (conf : Config)
    (auth : List Char → Option ConnectInfo) (stream : List Char)
    (avail : Nat) (relayExc : Nat) (parse : SplitResult) (ci : ConnectInfo)
    (hPath : urlsplitE req.path = .ok parse)
    (hAuth : auth (extractedToken parse.query
      (getheader req.headers cookieKey)) = some ci)
    (hOC : originCheck req.headers conf ci.console_type = .ok ()) :
    (iapTruthy ci.internal_access_path = false →
      new_websocket_client req conf auth stream avail true relayExc =
        (.error (.proxyError relayExc),
         [Ev.authCheck (extractedToken parse.query
            (getheader req.headers cookieKey)),
          Ev.authorized, Ev.originChecked, Ev.connect ci.host ci.port,
          Ev.startProxy stream,
          Ev.shutdownRDWR, Ev.closeSock, Ev.logClosed ci.host ci.port])) ∧
    (∀ accessPath, ci.internal_access_path = some accessPath →
      accessPath ≠ [] →
      containsSub crlfcrlf (stream.take (min avail 4096)) = true →
      containsSub twoHundred
        (upToSub crlf (stream.take (min avail 4096))) = true →
      new_websocket_client req conf auth stream avail true relayExc =
        (.error (.proxyError relayExc),
         [Ev.authCheck (extractedToken parse.query
            (getheader req.headers cookieKey)),
          Ev.authorized, Ev.originChecked, Ev.connect ci.host ci.port,
          Ev.sendHandshake accessPath,
          Ev.recvConsume (stream.take (min avail 4096)).length,
          Ev.startProxy (stream.drop (stream.take (min avail 4096)).length),
          Ev.shutdownRDWR, Ev.closeSock, Ev.logClosed ci.host ci.port])) := by
  constructor
  · intro hIapF
    simp only [new_websocket_client, hPath, hAuth, hOC, hIapF]
    simp
  · intro accessPath hIap hIapNe hTerm hGood
    simp only [new_websocket_client, hPath, hAuth, hOC, hTerm, hGood,
      hIap, Option.getD_some]
    simp [iapTruthy, hIapNe]

/-- Witness for claim C9 at scenario A: the relay's exception `7` causes
shutdown, close and the termination log naming `10.0.0.5:6080`, then is
re-raised. -/
theorem c9_relay_teardown_witness :
    new_websocket_client reqNoOrigin sampleConf (authFor sampleCi)
      [] 0 true 7 =
      (.error (.proxyError 7),
       [Ev.authCheck (("abc123").data), Ev.authorized, Ev.originChecked,
        Ev.connect (("10.0.0.5").data) 6080, Ev.startProxy [],
        Ev.shutdownRDWR, Ev.closeSock,
        Ev.logClosed (("10.0.0.5").data) 6080]) :=
  (c9_relay_teardown reqNoOrigin sampleConf (authFor sampleCi) [] 0 7
    ⟨[], [], ['/'], (("token=abc123").data), []⟩ sampleCi
    rfl rfl rfl).1 rfl

end WsProxy
